import Mathlib

/-!
Shallow embedding of `DynamixelUtils.h`: the Dynamixel protocol-abstraction
core (framing constants, checksum engine, register-access metadata, packet
envelope), together with theorems checking the natural-language specification
against it.

Machine integers are modelled as `Nat` (unsigned) or `Int` (C `int`), with
explicit truncation `% 2^w` wherever the C code narrows a value.
Byte buffers with an explicit length argument are modelled as `List Nat`
holding the bytes `buffer[0..length)`.
-/

namespace DynamixelUtils

/-! ## Wire framing constants (`enum dynamixelV2`, `v1Header`, `v2Header`) -/

/-- Enumerator `minPacketLenght = 12` (with checksum); the source's spelling is kept. -/
def minPacketLenght : Nat := 12

/-- Enumerator `minInstructionLength = 5` (without checksum). -/
def minInstructionLength : Nat := 5

/-- Enumerator `minResponseLength = 5` (without checksum). -/
def minResponseLength : Nat := 5

/-- Enumerator `writeInstruction = 0x03`. -/
def writeInstruction : Nat := 0x03

/-- Enumerator `readInstruction`: no explicit value in the source, so it is the
next enumerator after `writeInstruction`. -/
def readInstruction : Nat := writeInstruction + 1

/-- Enumerator `statusInstruction = 0x55`. -/
def statusInstruction : Nat := 0x55

/-- Enumerator `alertBit = 128`. -/
def alertBit : Nat := 128

/-- Enumerator `lengthLSBPos = 5`. -/
def lengthLSBPos : Nat := 5

/-- Enumerator `lengthMSBPos = 6`. -/
def lengthMSBPos : Nat := 6

/-- Enumerator `instructionPos = 7`. -/
def instructionPos : Nat := 7

/-- Enumerator `responseParameterStart = 8`. -/
def responseParameterStart : Nat := 8

/-- `constexpr unsigned char v1Header[2] = \x7b0xFF,0xFF\x7d`. -/
def v1Header : List Nat := [0xFF, 0xFF]

/-- `constexpr unsigned char v2Header[4] = \x7b0xFF,0xFF,0xFD,0x00\x7d`. -/
def v2Header : List Nat := [0xFF, 0xFF, 0xFD, 0x00]

/-! ## Checksum engine -/

/-- Embedding of `v1Checksum(packet_to_check, packet_size)`.

The C function sums the bytes into `int tempSum` (no overflow is possible:
`packet_size` is an `unsigned short`, so the sum is at most
`65535 * 255 < 2^31`), then returns `~tempSum & 0xFF` as an `unsigned char`.
On a two's-complement `int`, `~tempSum` is exactly `-tempSum - 1`, and
`x & 0xFF` extracts the low byte of the two's-complement representation,
which is `x` modulo `256` (a value in `[0, 255]`); `Int` division here is
Euclidean, so `%` already yields the nonnegative representative. -/
def v1Checksum (packet_to_check : List Nat) : Nat :=
  ((-(packet_to_check.foldl (fun (tempSum : Int) (b : Nat) => tempSum + (b : Int)) 0) - 1)
    % 256).toNat

/-- Embedding of `constexpr unsigned short crc_table[256]`, byte-for-byte. -/
def crc_table : List Nat := [
  0x0000, 0x8005, 0x800F, 0x000A, 0x801B, 0x001E, 0x0014, 0x8011,
  0x8033, 0x0036, 0x003C, 0x8039, 0x0028, 0x802D, 0x8027, 0x0022,
  0x8063, 0x0066, 0x006C, 0x8069, 0x0078, 0x807D, 0x8077, 0x0072,
  0x0050, 0x8055, 0x805F, 0x005A, 0x804B, 0x004E, 0x0044, 0x8041,
  0x80C3, 0x00C6, 0x00CC, 0x80C9, 0x00D8, 0x80DD, 0x80D7, 0x00D2,
  0x00F0, 0x80F5, 0x80FF, 0x00FA, 0x80EB, 0x00EE, 0x00E4, 0x80E1,
  0x00A0, 0x80A5, 0x80AF, 0x00AA, 0x80BB, 0x00BE, 0x00B4, 0x80B1,
  0x8093, 0x0096, 0x009C, 0x8099, 0x0088, 0x808D, 0x8087, 0x0082,
  0x8183, 0x0186, 0x018C, 0x8189, 0x0198, 0x819D, 0x8197, 0x0192,
  0x01B0, 0x81B5, 0x81BF, 0x01BA, 0x81AB, 0x01AE, 0x01A4, 0x81A1,
  0x01E0, 0x81E5, 0x81EF, 0x01EA, 0x81FB, 0x01FE, 0x01F4, 0x81F1,
  0x81D3, 0x01D6, 0x01DC, 0x81D9, 0x01C8, 0x81CD, 0x81C7, 0x01C2,
  0x0140, 0x8145, 0x814F, 0x014A, 0x815B, 0x015E, 0x0154, 0x8151,
  0x8173, 0x0176, 0x017C, 0x8179, 0x0168, 0x816D, 0x8167, 0x0162,
  0x8123, 0x0126, 0x012C, 0x8129, 0x0138, 0x813D, 0x8137, 0x0132,
  0x0110, 0x8115, 0x811F, 0x011A, 0x810B, 0x010E, 0x0104, 0x8101,
  0x8303, 0x0306, 0x030C, 0x8309, 0x0318, 0x831D, 0x8317, 0x0312,
  0x0330, 0x8335, 0x833F, 0x033A, 0x832B, 0x032E, 0x0324, 0x8321,
  0x0360, 0x8365, 0x836F, 0x036A, 0x837B, 0x037E, 0x0374, 0x8371,
  0x8353, 0x0356, 0x035C, 0x8359, 0x0348, 0x834D, 0x8347, 0x0342,
  0x03C0, 0x83C5, 0x83CF, 0x03CA, 0x83DB, 0x03DE, 0x03D4, 0x83D1,
  0x83F3, 0x03F6, 0x03FC, 0x83F9, 0x03E8, 0x83ED, 0x83E7, 0x03E2,
  0x83A3, 0x03A6, 0x03AC, 0x83A9, 0x03B8, 0x83BD, 0x83B7, 0x03B2,
  0x0390, 0x8395, 0x839F, 0x039A, 0x838B, 0x038E, 0x0384, 0x8381,
  0x0280, 0x8285, 0x828F, 0x028A, 0x829B, 0x029E, 0x0294, 0x8291,
  0x82B3, 0x02B6, 0x02BC, 0x82B9, 0x02A8, 0x82AD, 0x82A7, 0x02A2,
  0x82E3, 0x02E6, 0x02EC, 0x82E9, 0x02F8, 0x82FD, 0x82F7, 0x02F2,
  0x02D0, 0x82D5, 0x82DF, 0x02DA, 0x82CB, 0x02CE, 0x02C4, 0x82C1,
  0x8243, 0x0246, 0x024C, 0x8249, 0x0258, 0x825D, 0x8257, 0x0252,
  0x0270, 0x8275, 0x827F, 0x027A, 0x826B, 0x026E, 0x0264, 0x8261,
  0x0220, 0x8225, 0x822F, 0x022A, 0x823B, 0x023E, 0x0234, 0x8231,
  0x8213, 0x0216, 0x021C, 0x8219, 0x0208, 0x820D, 0x8207, 0x0202]

/-- One iteration of the loop body of `crc_compute`:
`i = ((crc_accum >> 8) ^ packet_to_check[j]) & 0xFF;`
`crc_accum = (crc_accum << 8) ^ crc_table[i];`
where the assignment back into the `unsigned short crc_accum` truncates the
promoted-`int` result to 16 bits. -/
def crcStep (crc_accum b : Nat) : Nat :=
  let i := ((crc_accum >>> 8) ^^^ b) &&& 0xFF
  ((crc_accum <<< 8) ^^^ crc_table.getD i 0) % 65536

/-- Embedding of `crc_compute(packet_to_check, packet_size)`: left fold of the
loop body over the bytes, accumulator starting at 0. -/
def crc_compute (packet_to_check : List Nat) : Nat :=
  packet_to_check.foldl crcStep 0

/-! ## Data structures -/

/-- Embedding of `struct DynamixelAccessData`: a two-byte little-endian
address (`const uint8_t address[2]`) and a data length (`const uint8_t length`).
All fields are `const` in the source, which a pure record captures directly. -/
structure DynamixelAccessData where
  address : List Nat
  length : Nat
deriving DecidableEq, Repr

/-- Embedding of the constructor
`DynamixelAccessData(addressLSB, addressMSB, size) : address\x7baddressLSB,addressMSB\x7d, length(size)`. -/
def mkAccessData (addressLSB addressMSB size : Nat) : DynamixelAccessData :=
  { address := [addressLSB, addressMSB], length := size }

/-- Embedding of `struct DynamixelMotorData`. The eight
`const DynamixelAccessData&` reference members are modelled as the referenced
immutable values; the three `const float` conversion factors keep their
floating-point type (they are only stored, never computed with). `motorID` is
the one non-`const` field. -/
structure DynamixelMotorData where
  motorID : Nat
  id : DynamixelAccessData
  led : DynamixelAccessData
  torqueEnable : DynamixelAccessData
  currentTorque : DynamixelAccessData
  goalAngle : DynamixelAccessData
  currentAngle : DynamixelAccessData
  goalVelocity : DynamixelAccessData
  currentVelocity : DynamixelAccessData
  valueToTorque : Float
  valueToAngle : Float
  valueToVelocity : Float

/-- Embedding of the `DynamixelMotorData` constructor: every member is
initialized from the corresponding argument. -/
def mkMotorData (newID : Nat)
    (idAccess ledAccess torqueEnAccess currentTorqueAccess goalAngleAccess
     currentAngleAccess goalVelocityAccess currentVelocityAccess : DynamixelAccessData)
    (torqueConvertFactor angleConvertFactor velocityConvertFactor : Float) :
    DynamixelMotorData :=
  { motorID := newID
    id := idAccess
    led := ledAccess
    torqueEnable := torqueEnAccess
    currentTorque := currentTorqueAccess
    goalAngle := goalAngleAccess
    currentAngle := currentAngleAccess
    goalVelocity := goalVelocityAccess
    currentVelocity := currentVelocityAccess
    valueToTorque := torqueConvertFactor
    valueToAngle := angleConvertFactor
    valueToVelocity := velocityConvertFactor }

/-- Modelled from the spec: the explicit "set ID" operation on a motor's
register map. It is not in `src/DynamixelUtils.h` (it lives in the
`DynamixelMotor` class that owns a `DynamixelMotorData`); the spec says it
"must also update the stored value", i.e. it assigns the new identifier to
`motorID`, the only non-`const` member. -/
def setMotorID (d : DynamixelMotorData) (newID : Nat) : DynamixelMotorData :=
  { d with motorID := newID }

/-- The constancy contract of the `const` members of `DynamixelMotorData`:
two states agree on every field except possibly `motorID`. Any C++ mutation of
the struct must satisfy this relation, since all other members are `const`. -/
def ConstFieldsEq (d d' : DynamixelMotorData) : Prop :=
  d.id = d'.id ∧ d.led = d'.led ∧ d.torqueEnable = d'.torqueEnable ∧
  d.currentTorque = d'.currentTorque ∧ d.goalAngle = d'.goalAngle ∧
  d.currentAngle = d'.currentAngle ∧ d.goalVelocity = d'.goalVelocity ∧
  d.currentVelocity = d'.currentVelocity ∧ d.valueToTorque = d'.valueToTorque ∧
  d.valueToAngle = d'.valueToAngle ∧ d.valueToVelocity = d'.valueToVelocity

/-- One mutation of a `DynamixelMotorData`: the only operation that writes to
it is the set-ID operation (all other members are `const`, and no other method
of the repository assigns to `motorID`). -/
inductive MotorMutStep : DynamixelMotorData → DynamixelMotorData → Prop
  | setID (d : DynamixelMotorData) (n : Nat) : MotorMutStep d (setMotorID d n)

/-- Embedding of `struct DynamixelPacket`: the owned byte buffer, its length,
and the expected response length. All three members are `const`. -/
structure DynamixelPacket where
  packet : List Nat
  packetSize : Nat
  responseSize : Nat
deriving DecidableEq, Repr

/-- Embedding of the two-argument constructor
`DynamixelPacket(packet, length) : packet(packet), packetSize(length), responseSize(0)`.
The source performs no validation of `length`. -/
def mkPacketNoResponse (packet : List Nat) (length : Nat) : DynamixelPacket :=
  { packet := packet, packetSize := length, responseSize := 0 }

/-- Embedding of the three-argument constructor
`DynamixelPacket(packet, length, responseLength)`. The source performs no
validation of `length`. -/
def mkPacketWithResponse (packet : List Nat) (length responseLength : Nat) :
    DynamixelPacket :=
  { packet := packet, packetSize := length, responseSize := responseLength }

/-! ## Spec-side definitions (for refinement claims) -/

/-- Spec recurrence for the v2 CRC, written from the spec's words: start the
16-bit accumulator at 0 and, for each byte `b`, set
`i = ((accumulator >> 8) ^ b) & 0xFF` and
`accumulator = ((accumulator << 8) ^ crc_table[i])` truncated to 16 bits;
the final accumulator is the CRC. -/
def crcSpecGo : Nat → List Nat → Nat
  | accumulator, [] => accumulator
  | accumulator, b :: rest =>
      crcSpecGo (((accumulator <<< 8) ^^^
        crc_table.getD (((accumulator >>> 8) ^^^ b) &&& 0xFF) 0) % 65536) rest

/-- Spec expression `~sum(s) & 0xFF`: the ones' complement of the byte sum,
masked to the low byte — i.e. the bitwise complement of `sum(s) mod 256`
within 8 bits. -/
def specV1Checksum (s : List Nat) : Nat :=
  (s.sum % 256) ^^^ 0xFF

/-- Spec generator for the CRC table: one round of the MSB-first polynomial
`0x8005` step on a 16-bit value — shift left by one and XOR with the
polynomial when the bit shifted out was 1. -/
def crcPolyStep (v : Nat) : Nat :=
  if v &&& 0x8000 ≠ 0 then ((v <<< 1) ^^^ 0x8005) % 65536
  else (v <<< 1) % 65536

/-- Spec generator for entry `i` of the CRC table: eight polynomial rounds
starting from the 16-bit value `i << 8`. -/
def crcEntry (i : Nat) : Nat :=
  crcPolyStep^[8] ((i <<< 8) % 65536)

/-! ## Helper lemmas -/

/-- Left-folding integer addition of a byte list over an accumulator adds the
list's sum. -/
lemma foldl_add_int (l : List Nat) (a : Int) :
    l.foldl (fun (tempSum : Int) (b : Nat) => tempSum + (b : Int)) a = a + l.sum := by
  induction l generalizing a with
  | nil => simp
  | cons x xs ih =>
      rw [List.foldl_cons, ih, List.sum_cons]
      push_cast
      ring

/-- Closed form of the v1 checksum: `255 - (sum mod 256)`. -/
lemma v1Checksum_closed (s : List Nat) : v1Checksum s = 255 - s.sum % 256 := by
  unfold v1Checksum
  rw [foldl_add_int]
  omega

set_option maxRecDepth 4096 in
/-- XOR with `0xFF` complements a byte. -/
lemma byte_xor_255 (m : Nat) (h : m < 256) : m ^^^ 255 = 255 - m := by
  have h256 : ∀ k : Fin 256, (k.val ^^^ 255) = 255 - k.val := by decide
  exact h256 ⟨m, h⟩

/-- The fold of the CRC loop body equals the spec recurrence from any
accumulator value. -/
lemma crc_foldl_go (l : List Nat) (acc : Nat) :
    l.foldl crcStep acc = crcSpecGo acc l := by
  induction l generalizing acc with
  | nil => rfl
  | cons b rest ih =>
      rw [List.foldl_cons, ih]
      rfl

/-- `ConstFieldsEq` is reflexive. -/
lemma constFieldsEq_refl (d : DynamixelMotorData) : ConstFieldsEq d d :=
  ⟨rfl, rfl, rfl, rfl, rfl, rfl, rfl, rfl, rfl, rfl, rfl⟩

/-- `ConstFieldsEq` is transitive. -/
lemma constFieldsEq_trans {a b c : DynamixelMotorData}
    (h1 : ConstFieldsEq a b) (h2 : ConstFieldsEq b c) : ConstFieldsEq a c := by
  obtain ⟨e1, e2, e3, e4, e5, e6, e7, e8, e9, e10, e11⟩ := h1
  obtain ⟨f1, f2, f3, f4, f5, f6, f7, f8, f9, f10, f11⟩ := h2
  exact ⟨e1.trans f1, e2.trans f2, e3.trans f3, e4.trans f4, e5.trans f5,
    e6.trans f6, e7.trans f7, e8.trans f8, e9.trans f9, e10.trans f10,
    e11.trans f11⟩

/-- A single mutation step preserves every `const` field. -/
lemma mutStep_constFields {d d' : DynamixelMotorData} (h : MotorMutStep d d') :
    ConstFieldsEq d d' := by
  cases h with
  | setID n => exact ⟨rfl, rfl, rfl, rfl, rfl, rfl, rfl, rfl, rfl, rfl, rfl⟩

/-- Concrete access descriptor used to instantiate witnesses. -/
def sampleAccess : DynamixelAccessData := mkAccessData 3 0 1

/-- Concrete motor register map used to instantiate witnesses. -/
def sampleMotor : DynamixelMotorData :=
  mkMotorData 1 sampleAccess sampleAccess sampleAccess sampleAccess
    sampleAccess sampleAccess sampleAccess sampleAccess 1.0 1.0 1.0

/-! ## Claim theorems -/

/-- C1: for every byte buffer, `crc_compute` equals the table-driven
recurrence of the spec: accumulator starts at 0 and, for each byte `b`, the
table index is `((accumulator >> 8) ^ b) & 0xFF` and the accumulator becomes
`((accumulator << 8) ^ crc_table[i])` truncated to 16 bits; the final
accumulator is the returned CRC. -/
theorem crc_compute_table_recurrence (l : List Nat) :
    crc_compute l = crcSpecGo 0 l :=
  crc_foldl_go l 0

/-- C2 (counterexample): appending `v1Checksum(s)` to `s = [1, 2, 3]` and
summing the extended sequence modulo 256 yields 255, not 0 as the claim
states. -/
theorem v1Checksum_extended_sum_ne_zero :
    ¬ ((([1, 2, 3] : List Nat) ++ [v1Checksum [1, 2, 3]]).sum % 256 = 0) := by
  decide

/-- C2 (amended): for every byte sequence `s`, `v1Checksum s` equals
`~sum(s) & 0xFF`, and appending `v1Checksum s` to `s` and summing the whole
extended sequence modulo 256 yields 0xFF (all ones), not 0. -/
theorem v1Checksum_complement_and_extended_sum (s : List Nat) :
    v1Checksum s = specV1Checksum s ∧ (s ++ [v1Checksum s]).sum % 256 = 255 := by
  have h := v1Checksum_closed s
  constructor
  · rw [h]
    unfold specV1Checksum
    rw [byte_xor_255 (s.sum % 256) (Nat.mod_lt _ (by norm_num))]
  · rw [List.sum_append, List.sum_singleton, h]
    omega

/-- C3 (counterexample): constructing a packet with `packetSize = 0`, below
the v2 minimum framing length of 12, does not fail: it produces an envelope
whose `packetSize` is 0. -/
theorem packet_below_min_constructs :
    (mkPacketNoResponse [] 0).packetSize = 0 ∧
    (mkPacketNoResponse [] 0).packetSize < minPacketLenght ∧
    mkPacketNoResponse [] 0 =
      { packet := [], packetSize := 0, responseSize := 0 } := by
  decide

/-- C3 (amended): packet-envelope construction performs no size validation at
all: for every buffer, length and response length, both constructors succeed
and store the given values unchanged, even when `packetSize` is below the
minimum framing length of the active protocol version. -/
theorem packet_construction_no_validation (p : List Nat) (len rlen : Nat) :
    (mkPacketNoResponse p len).packet = p ∧
    (mkPacketNoResponse p len).packetSize = len ∧
    (mkPacketNoResponse p len).responseSize = 0 ∧
    (mkPacketWithResponse p len rlen).packet = p ∧
    (mkPacketWithResponse p len rlen).packetSize = len ∧
    (mkPacketWithResponse p len rlen).responseSize = rlen :=
  ⟨rfl, rfl, rfl, rfl, rfl, rfl⟩

/-- C4: the wire framing constants are bit-exact: v1 header `0xFF 0xFF`; v2
header `0xFF 0xFF 0xFD 0x00`; minimum v2 full packet length 12; minimum v2
instruction and response segment lengths 5; write instruction `0x03`; read
instruction `0x04` (the next enumerator after write); status instruction
`0x55`; alert flag bit `0x80`; length-low offset 5, length-high offset 6,
instruction offset 7, response parameters offset 8. -/
theorem framing_constants_bit_exact :
    v1Header = [0xFF, 0xFF] ∧
    v2Header = [0xFF, 0xFF, 0xFD, 0x00] ∧
    minPacketLenght = 12 ∧
    minInstructionLength = 5 ∧
    minResponseLength = 5 ∧
    writeInstruction = 0x03 ∧
    readInstruction = writeInstruction + 1 ∧
    readInstruction = 0x04 ∧
    statusInstruction = 0x55 ∧
    alertBit = 0x80 ∧
    lengthLSBPos = 5 ∧
    lengthMSBPos = 6 ∧
    instructionPos = 7 ∧
    responseParameterStart = 8 := by
  decide

/-- C5 (counterexample): the constructor enforces no `length >= 1` invariant:
`DynamixelAccessData(0, 0, 0)` is constructible and its `length` is 0. -/
theorem accessData_length_invariant_fails :
    ¬ (1 ≤ (mkAccessData 0 0 0).length) := by
  decide

/-- C5 (amended): a constructed `DynamixelAccessData` stores exactly the
constructor arguments, and since all fields are `const`, every read returns
those same values (two reads at different times are equal); `length >= 1`
holds whenever the descriptor is constructed with `size >= 1`, but it is not
enforced by construction. -/
theorem accessData_fields_fixed (lsb msb size : Nat) :
    (mkAccessData lsb msb size).address = [lsb, msb] ∧
    (mkAccessData lsb msb size).length = size ∧
    (1 ≤ size → 1 ≤ (mkAccessData lsb msb size).length) :=
  ⟨rfl, rfl, fun h => h⟩

/-- C5 (witness): instantiation of `accessData_fields_fixed` at the concrete
descriptor `DynamixelAccessData(3, 0, 2)`. -/
theorem accessData_fields_fixed_witness :
    (mkAccessData 3 0 2).address = [3, 0] ∧ 1 ≤ (mkAccessData 3 0 2).length :=
  ⟨(accessData_fields_fixed 3 0 2).1,
   (accessData_fields_fixed 3 0 2).2.2 (by decide)⟩

/-- C6: the checksum functions are total and deterministic on every input
length, including zero: on the empty range `v1Checksum` returns `0xFF` (the
complement of the empty sum) and `crc_compute` returns `0x0000`. -/
theorem checksum_engine_empty_range :
    v1Checksum [] = 0xFF ∧ crc_compute [] = 0 := by
  decide

/-- C7: the motor identifier is the only per-instance mutable state of a
`DynamixelMotorData`: every sequence of mutation steps (the only mutation is
the explicit set-ID operation) preserves all eight descriptor references and
the three conversion factors, and the set-ID operation stores the new
identifier while changing nothing else. -/
theorem motorID_only_mutable_state (d d' : DynamixelMotorData) (n : Nat)
    (h : Relation.ReflTransGen MotorMutStep d d') :
    ConstFieldsEq d d' ∧ (setMotorID d n).motorID = n ∧
    ConstFieldsEq d (setMotorID d n) := by
  refine ⟨?_, rfl, mutStep_constFields (MotorMutStep.setID d n)⟩
  induction h with
  | refl => exact constFieldsEq_refl d
  | tail _ hbc ih => exact constFieldsEq_trans ih (mutStep_constFields hbc)

/-- C7 (witness): instantiation of `motorID_only_mutable_state` at a concrete
motor register map with one set-ID step to identifier 7. -/
theorem motorID_only_mutable_state_witness :
    ConstFieldsEq sampleMotor (setMotorID sampleMotor 7) ∧
    (setMotorID sampleMotor 7).motorID = 7 ∧
    ConstFieldsEq sampleMotor (setMotorID sampleMotor 7) :=
  motorID_only_mutable_state sampleMotor (setMotorID sampleMotor 7) 7
    (Relation.ReflTransGen.single (MotorMutStep.setID sampleMotor 7))

/-- C9: for every byte sequence whose byte sum fits in the signed `int`
accumulator, the byte sum plus the v1 checksum is 0xFF modulo 256;
equivalently `v1Checksum s = 0xFF - (sum(s) mod 256)`, so the checksum depends
only on the sum modulo 256. -/
theorem v1Checksum_sum_relation (s : List Nat)
    (_hbytes : ∀ b ∈ s, b < 256) (_hfits : (s.sum : Int) < 2 ^ 31) :
    (s.sum + v1Checksum s) % 256 = 255 ∧
    v1Checksum s = 0xFF - s.sum % 256 := by
  have h := v1Checksum_closed s
  refine ⟨?_, h⟩
  rw [h]
  omega

/-- C9 (witness): instantiation of `v1Checksum_sum_relation` at the concrete
byte sequence `[1, 2, 3]`. -/
theorem v1Checksum_sum_relation_witness :
    (([1, 2, 3] : List Nat).sum + v1Checksum [1, 2, 3]) % 256 = 255 ∧
    v1Checksum [1, 2, 3] = 0xFF - ([1, 2, 3] : List Nat).sum % 256 :=
  v1Checksum_sum_relation [1, 2, 3] (by decide) (by decide)

set_option maxRecDepth 8192 in
/-- C10: every entry of `crc_table` equals the entry generated from the
CRC-16 polynomial `0x8005` in MSB-first (non-reflected) form: starting from
the 16-bit value `i << 8`, eight rounds of shift-left-by-one, XORing with
`0x8005` whenever the bit shifted out was 1. -/
theorem crc_table_from_polynomial (i : Fin 256) :
    crc_table.getD i.val 0 = crcEntry i.val := by
  revert i
  decide

end DynamixelUtils
